import Mathlib

/-!
Verification of the launcher in src/main.py.

The launcher performs, inside one try block:
  1. subprocess.run(["node", "--version"], check=True, capture_output=True)
  2. subprocess.run(["npm", "--version"], check=True, capture_output=True)
  3. if not os.path.exists("node_modules"): subprocess.run(["npm", "install"], check=True)
  4. result = subprocess.run(["npm", "run", "dev"], check=False); return result.returncode
with handlers: except subprocess.CalledProcessError -> return 1;
except KeyboardInterrupt -> return 0; except Exception -> return 1.
The script then calls sys.exit(main()).

We embed the launcher as a pure function over a World record describing the
outcome each subprocess invocation would have and whether the node_modules
directory exists. Alongside the Python return value we record the trace of
observable steps, so that claims of the form "command X is never invoked"
become membership statements about the trace.
-/

namespace Launcher

/-- The exceptions that can escape a step of the try block in src/main.py.
otherError stands for any exception that is neither
subprocess.CalledProcessError nor KeyboardInterrupt; in this program it
arises from a subprocess launch failure (an OSError such as
FileNotFoundError) and is caught by the generic except Exception handler. -/
inductive PyExc where
  | calledProcessError
  | keyboardInterrupt
  | otherError
deriving DecidableEq, Repr

/-- Outcome of attempting one subprocess: the process ran and exited with
the given code (negative codes model signal-terminated children, as Python
reports them), or the executable could not be launched at all, or a
KeyboardInterrupt was raised while this step was in progress. -/
inductive ProcResult where
  | exited (code : Int)
  | launchFailure
  | interrupted
deriving DecidableEq, Repr

/-- The observable steps of src/main.py lines 18-35, in source order:
the two version probes, the os.path.exists("node_modules") check, the
npm install command and the npm run dev command. -/
inductive Event where
  | runNodeVersion
  | runNpmVersion
  | checkNodeModules
  | runNpmInstall
  | runNpmRunDev
deriving DecidableEq, Repr

/-- The environment of one invocation: what each subprocess would do if
invoked, and whether the node_modules directory exists. -/
structure World where
  nodeVersion : ProcResult
  npmVersion : ProcResult
  nodeModulesExists : Bool
  npmInstall : ProcResult
  npmRunDev : ProcResult
deriving DecidableEq, Repr

/-- subprocess.run(cmd, check=check): if the child exits and check is set,
a nonzero exit code raises CalledProcessError, otherwise the completed
process (its returncode) is returned; a launch failure raises an OSError
(modelled by otherError); a KeyboardInterrupt during the call propagates. -/
def runProc (check : Bool) (r : ProcResult) : Except PyExc Int :=
  match r with
  | ProcResult.exited c =>
      if check = true ∧ c ≠ 0 then Except.error PyExc.calledProcessError
      else Except.ok c
  | ProcResult.launchFailure => Except.error PyExc.otherError
  | ProcResult.interrupted => Except.error PyExc.keyboardInterrupt

/-- The try block of main (src/main.py lines 16-36): node probe, npm probe,
conditional npm install, then npm run dev whose returncode is the value of
the block. The second component records which steps were reached. -/
def mainRun (w : World) : Except PyExc Int × List Event :=
  match runProc true w.nodeVersion with
  | Except.error e => (Except.error e, [Event.runNodeVersion])
  | Except.ok _ =>
    match runProc true w.npmVersion with
    | Except.error e => (Except.error e, [Event.runNodeVersion, Event.runNpmVersion])
    | Except.ok _ =>
      if w.nodeModulesExists then
        (runProc false w.npmRunDev,
         [Event.runNodeVersion, Event.runNpmVersion, Event.checkNodeModules,
          Event.runNpmRunDev])
      else
        match runProc true w.npmInstall with
        | Except.error e =>
          (Except.error e,
           [Event.runNodeVersion, Event.runNpmVersion, Event.checkNodeModules,
            Event.runNpmInstall])
        | Except.ok _ =>
          (runProc false w.npmRunDev,
           [Event.runNodeVersion, Event.runNpmVersion, Event.checkNodeModules,
            Event.runNpmInstall, Event.runNpmRunDev])

/-- The exception handlers of main (src/main.py lines 38-47):
CalledProcessError gives 1, KeyboardInterrupt gives 0, any other
exception gives 1; a normal value passes through. -/
def handle (r : Except PyExc Int) : Int :=
  match r with
  | Except.ok c => c
  | Except.error PyExc.calledProcessError => 1
  | Except.error PyExc.keyboardInterrupt => 0
  | Except.error PyExc.otherError => 1

/-- The Python-level return value of main for a given environment. -/
def main (w : World) : Int := handle (mainRun w).fst

/-- The steps the launcher actually performed in a given environment. -/
def trace (w : World) : List Event := (mainRun w).snd

/-- sys.exit(main()) at src/main.py lines 49-50: the process exit status
observed by the parent is the returned integer reduced modulo 256, the
POSIX wait-status convention for the C exit call that CPython makes. -/
def launcherExitStatus (w : World) : Nat := ((main w) % 256).toNat

/-- A probe fails in the sense of the spec when the executable cannot be
launched or the version query exits with a nonzero code. -/
def probeFails (r : ProcResult) : Prop :=
  r = ProcResult.launchFailure ∨ ∃ c, c ≠ 0 ∧ r = ProcResult.exited c

/-- A world where everything succeeds and npm run dev exits with 7. -/
def wForward : World :=
  ⟨ProcResult.exited 0, ProcResult.exited 0, false, ProcResult.exited 0,
   ProcResult.exited 7⟩

/-- A world where the node probe cannot be launched. -/
def wNodeFail : World :=
  ⟨ProcResult.launchFailure, ProcResult.exited 0, true, ProcResult.exited 0,
   ProcResult.exited 0⟩

/-- A world where node succeeds and the npm probe exits nonzero. -/
def wNpmFail : World :=
  ⟨ProcResult.exited 0, ProcResult.exited 127, true, ProcResult.exited 0,
   ProcResult.exited 0⟩

/-- A world where both probes succeed and node_modules exists. -/
def wMarkerPresent : World :=
  ⟨ProcResult.exited 0, ProcResult.exited 0, true, ProcResult.exited 0,
   ProcResult.exited 0⟩

/-- A world where both probes succeed and node_modules is absent. -/
def wMarkerAbsent : World :=
  ⟨ProcResult.exited 0, ProcResult.exited 0, false, ProcResult.exited 0,
   ProcResult.exited 0⟩

/-- A world where the install command exits nonzero. -/
def wInstallFail : World :=
  ⟨ProcResult.exited 0, ProcResult.exited 0, false, ProcResult.exited 2,
   ProcResult.exited 0⟩

/-- A world where the node probe is interrupted. -/
def wInterrupt : World :=
  ⟨ProcResult.interrupted, ProcResult.exited 0, true, ProcResult.exited 0,
   ProcResult.exited 0⟩

/-- A world where npm run dev cannot be launched. -/
def wDevLaunchFail : World :=
  ⟨ProcResult.exited 0, ProcResult.exited 0, true, ProcResult.exited 0,
   ProcResult.launchFailure⟩

/-- C1: if both probes succeed, the install command succeeds whenever the
dependency directory is absent, and npm run dev exits with code n in
[0,255], then the launcher process exits with status n, unchanged. -/
theorem forward_exit_code (w : World) (n : Nat) (hn : n ≤ 255)
    (h1 : w.nodeVersion = ProcResult.exited 0)
    (h2 : w.npmVersion = ProcResult.exited 0)
    (h3 : w.nodeModulesExists = false → w.npmInstall = ProcResult.exited 0)
    (h4 : w.npmRunDev = ProcResult.exited (n : Int)) :
    launcherExitStatus w = n := by
  cases hb : w.nodeModulesExists with
  | true =>
    simp [launcherExitStatus, main, mainRun, runProc, handle, h1, h2, h4, hb]
    omega
  | false =>
    have h3' := h3 hb
    simp [launcherExitStatus, main, mainRun, runProc, handle, h1, h2, h3', h4, hb]
    omega

/-- Witness for C1 at a concrete world where npm run dev exits with 7. -/
theorem forward_exit_code_witness : launcherExitStatus wForward = 7 :=
  forward_exit_code wForward 7 (by decide) rfl rfl (fun _ => rfl) rfl

/-- C2: in every environment the launcher process exit status is an
integer between 0 and 255 inclusive (it is a natural number by type). -/
theorem exit_status_in_range (w : World) : launcherExitStatus w ≤ 255 := by
  unfold launcherExitStatus
  have hlt : main w % 256 < 256 := Int.emod_lt_of_pos _ (by norm_num)
  have hge : (0 : Int) ≤ main w % 256 := Int.emod_nonneg _ (by norm_num)
  omega

/-- C3: if the node version probe fails (launch failure or nonzero exit),
the launcher exits with status 1 and never invokes the npm probe, the
install command or the start command. -/
theorem runtime_probe_failure_aborts (w : World) (h : probeFails w.nodeVersion) :
    launcherExitStatus w = 1 ∧ Event.runNpmVersion ∉ trace w ∧
      Event.runNpmInstall ∉ trace w ∧ Event.runNpmRunDev ∉ trace w := by
  rcases h with h | ⟨c, hc, h⟩
  · simp [launcherExitStatus, main, trace, mainRun, runProc, handle, h]
  · simp [launcherExitStatus, main, trace, mainRun, runProc, handle, h, hc]

/-- Witness for C3 at a world whose node probe cannot be launched. -/
theorem runtime_probe_failure_aborts_witness :
    launcherExitStatus wNodeFail = 1 ∧ Event.runNpmVersion ∉ trace wNodeFail ∧
      Event.runNpmInstall ∉ trace wNodeFail ∧ Event.runNpmRunDev ∉ trace wNodeFail :=
  runtime_probe_failure_aborts wNodeFail (Or.inl rfl)

/-- C4: if the node probe succeeds but the npm version probe fails, the
launcher exits with status 1 and never invokes install or start. -/
theorem npm_probe_failure_aborts (w : World)
    (h0 : w.nodeVersion = ProcResult.exited 0) (h : probeFails w.npmVersion) :
    launcherExitStatus w = 1 ∧ Event.runNpmInstall ∉ trace w ∧
      Event.runNpmRunDev ∉ trace w := by
  rcases h with h | ⟨c, hc, h⟩
  · simp [launcherExitStatus, main, trace, mainRun, runProc, handle, h0, h]
  · simp [launcherExitStatus, main, trace, mainRun, runProc, handle, h0, h, hc]

/-- Witness for C4 at a world whose npm probe exits with code 127. -/
theorem npm_probe_failure_aborts_witness :
    launcherExitStatus wNpmFail = 1 ∧ Event.runNpmInstall ∉ trace wNpmFail ∧
      Event.runNpmRunDev ∉ trace wNpmFail :=
  npm_probe_failure_aborts wNpmFail rfl (Or.inr ⟨127, by decide, rfl⟩)

/-- C5: if both probes succeed and node_modules exists, the install
command is never invoked. -/
theorem no_install_when_marker_present (w : World)
    (h1 : w.nodeVersion = ProcResult.exited 0)
    (h2 : w.npmVersion = ProcResult.exited 0)
    (h3 : w.nodeModulesExists = true) :
    Event.runNpmInstall ∉ trace w := by
  simp [trace, mainRun, runProc, h1, h2, h3]

/-- Witness for C5 at a world where node_modules exists. -/
theorem no_install_when_marker_present_witness :
    Event.runNpmInstall ∉ trace wMarkerPresent :=
  no_install_when_marker_present wMarkerPresent rfl rfl rfl

/-- C6: if both probes succeed and node_modules is absent, the install
command is invoked exactly once, after the node_modules existence check
and before any invocation of the start command (when the start command is
absent from the trace its index is the trace length, so the inequality
still expresses that no start invocation precedes the install). -/
theorem install_once_before_start (w : World)
    (h1 : w.nodeVersion = ProcResult.exited 0)
    (h2 : w.npmVersion = ProcResult.exited 0)
    (h3 : w.nodeModulesExists = false) :
    (trace w).count Event.runNpmInstall = 1 ∧
      (trace w).indexOf Event.checkNodeModules <
        (trace w).indexOf Event.runNpmInstall ∧
      (trace w).indexOf Event.runNpmInstall <
        (trace w).indexOf Event.runNpmRunDev := by
  cases hi : w.npmInstall with
  | exited c =>
    by_cases hc : c = 0
    · have ht : trace w =
        [Event.runNodeVersion, Event.runNpmVersion, Event.checkNodeModules,
         Event.runNpmInstall, Event.runNpmRunDev] := by
        simp [trace, mainRun, runProc, h1, h2, h3, hi, hc]
      rw [ht]; decide
    · have ht : trace w =
        [Event.runNodeVersion, Event.runNpmVersion, Event.checkNodeModules,
         Event.runNpmInstall] := by
        simp [trace, mainRun, runProc, h1, h2, h3, hi, hc]
      rw [ht]; decide
  | launchFailure =>
    have ht : trace w =
        [Event.runNodeVersion, Event.runNpmVersion, Event.checkNodeModules,
         Event.runNpmInstall] := by
      simp [trace, mainRun, runProc, h1, h2, h3, hi]
    rw [ht]; decide
  | interrupted =>
    have ht : trace w =
        [Event.runNodeVersion, Event.runNpmVersion, Event.checkNodeModules,
         Event.runNpmInstall] := by
      simp [trace, mainRun, runProc, h1, h2, h3, hi]
    rw [ht]; decide

/-- Witness for C6 at a world where node_modules is absent. -/
theorem install_once_before_start_witness :
    (trace wMarkerAbsent).count Event.runNpmInstall = 1 ∧
      (trace wMarkerAbsent).indexOf Event.checkNodeModules <
        (trace wMarkerAbsent).indexOf Event.runNpmInstall ∧
      (trace wMarkerAbsent).indexOf Event.runNpmInstall <
        (trace wMarkerAbsent).indexOf Event.runNpmRunDev :=
  install_once_before_start wMarkerAbsent rfl rfl rfl

/-- C7: if the install command was actually invoked and exits with a
nonzero code, the launcher exits with status 1 and never invokes the
start command. -/
theorem install_failure_aborts (w : World) (c : Int)
    (hmem : Event.runNpmInstall ∈ trace w)
    (hi : w.npmInstall = ProcResult.exited c) (hc : c ≠ 0) :
    launcherExitStatus w = 1 ∧ Event.runNpmRunDev ∉ trace w := by
  cases hn : w.nodeVersion with
  | exited c1 =>
    by_cases hc1 : c1 = 0
    · subst hc1
      cases hp : w.npmVersion with
      | exited c2 =>
        by_cases hc2 : c2 = 0
        · subst hc2
          cases hb : w.nodeModulesExists with
          | true => simp [trace, mainRun, runProc, hn, hp, hb] at hmem
          | false =>
            simp [launcherExitStatus, main, trace, mainRun, runProc, handle,
              hn, hp, hb, hi, hc]
        · simp [trace, mainRun, runProc, hn, hp, hc2] at hmem
      | launchFailure => simp [trace, mainRun, runProc, hn, hp] at hmem
      | interrupted => simp [trace, mainRun, runProc, hn, hp] at hmem
    · simp [trace, mainRun, runProc, hn, hc1] at hmem
  | launchFailure => simp [trace, mainRun, runProc, hn] at hmem
  | interrupted => simp [trace, mainRun, runProc, hn] at hmem

/-- Witness for C7 at a world where npm install exits with code 2. -/
theorem install_failure_aborts_witness :
    launcherExitStatus wInstallFail = 1 ∧
      Event.runNpmRunDev ∉ trace wInstallFail :=
  install_failure_aborts wInstallFail 2 (by decide) rfl (by decide)

/-- C8: a KeyboardInterrupt raised during whichever step is actually
executing — the node probe, the npm probe, the install command when it
runs, or the start command — makes the launcher exit with status 0. -/
theorem interrupt_gives_zero (w : World)
    (h : w.nodeVersion = ProcResult.interrupted
      ∨ (w.nodeVersion = ProcResult.exited 0 ∧
          w.npmVersion = ProcResult.interrupted)
      ∨ (w.nodeVersion = ProcResult.exited 0 ∧
          w.npmVersion = ProcResult.exited 0 ∧
          w.nodeModulesExists = false ∧
          w.npmInstall = ProcResult.interrupted)
      ∨ (w.nodeVersion = ProcResult.exited 0 ∧
          w.npmVersion = ProcResult.exited 0 ∧
          (w.nodeModulesExists = true ∨ w.npmInstall = ProcResult.exited 0) ∧
          w.npmRunDev = ProcResult.interrupted)) :
    launcherExitStatus w = 0 := by
  rcases h with h | ⟨h1, h2⟩ | ⟨h1, h2, h3, h4⟩ | ⟨h1, h2, h3, h4⟩
  · simp [launcherExitStatus, main, mainRun, runProc, handle, h]
  · simp [launcherExitStatus, main, mainRun, runProc, handle, h1, h2]
  · simp [launcherExitStatus, main, mainRun, runProc, handle, h1, h2, h3, h4]
  · rcases h3 with h3 | h3
    · simp [launcherExitStatus, main, mainRun, runProc, handle, h1, h2, h3, h4]
    · cases hb : w.nodeModulesExists with
      | true =>
        simp [launcherExitStatus, main, mainRun, runProc, handle, h1, h2, hb, h4]
      | false =>
        simp [launcherExitStatus, main, mainRun, runProc, handle, h1, h2, hb,
          h3, h4]

/-- Witness for C8 at a world whose node probe is interrupted. -/
theorem interrupt_gives_zero_witness : launcherExitStatus wInterrupt = 0 :=
  interrupt_gives_zero wInterrupt (Or.inl rfl)

/-- C9: a launch failure (or any other exception that is neither a checked
nonzero exit nor an interrupt) during whichever step is actually executing
makes the launcher exit with status 1. -/
theorem unexpected_failure_gives_one (w : World)
    (h : w.nodeVersion = ProcResult.launchFailure
      ∨ (w.nodeVersion = ProcResult.exited 0 ∧
          w.npmVersion = ProcResult.launchFailure)
      ∨ (w.nodeVersion = ProcResult.exited 0 ∧
          w.npmVersion = ProcResult.exited 0 ∧
          w.nodeModulesExists = false ∧
          w.npmInstall = ProcResult.launchFailure)
      ∨ (w.nodeVersion = ProcResult.exited 0 ∧
          w.npmVersion = ProcResult.exited 0 ∧
          (w.nodeModulesExists = true ∨ w.npmInstall = ProcResult.exited 0) ∧
          w.npmRunDev = ProcResult.launchFailure)) :
    launcherExitStatus w = 1 := by
  rcases h with h | ⟨h1, h2⟩ | ⟨h1, h2, h3, h4⟩ | ⟨h1, h2, h3, h4⟩
  · simp [launcherExitStatus, main, mainRun, runProc, handle, h]
  · simp [launcherExitStatus, main, mainRun, runProc, handle, h1, h2]
  · simp [launcherExitStatus, main, mainRun, runProc, handle, h1, h2, h3, h4]
  · rcases h3 with h3 | h3
    · simp [launcherExitStatus, main, mainRun, runProc, handle, h1, h2, h3, h4]
    · cases hb : w.nodeModulesExists with
      | true =>
        simp [launcherExitStatus, main, mainRun, runProc, handle, h1, h2, hb, h4]
      | false =>
        simp [launcherExitStatus, main, mainRun, runProc, handle, h1, h2, hb,
          h3, h4]

/-- Witness for C9 at a world where npm run dev cannot be launched. -/
theorem unexpected_failure_gives_one_witness :
    launcherExitStatus wDevLaunchFail = 1 :=
  unexpected_failure_gives_one wDevLaunchFail
    (Or.inr (Or.inr (Or.inr ⟨rfl, rfl, Or.inl rfl, rfl⟩)))

/-- C10: main is total and its Python-level return value is always 0, 1,
or the returncode of the npm run dev subprocess; it never propagates an
exception (in the embedding, main is a total function into Int). -/
theorem main_total_result (w : World) :
    main w = 0 ∨ main w = 1 ∨
      ∃ c, w.npmRunDev = ProcResult.exited c ∧ main w = c := by
  cases hn : w.nodeVersion with
  | launchFailure => right; left; simp [main, mainRun, runProc, handle, hn]
  | interrupted => left; simp [main, mainRun, runProc, handle, hn]
  | exited c1 =>
    by_cases hc1 : c1 = 0
    · subst hc1
      cases hp : w.npmVersion with
      | launchFailure => right; left; simp [main, mainRun, runProc, handle, hn, hp]
      | interrupted => left; simp [main, mainRun, runProc, handle, hn, hp]
      | exited c2 =>
        by_cases hc2 : c2 = 0
        · subst hc2
          cases hb : w.nodeModulesExists with
          | true =>
            cases hd : w.npmRunDev with
            | launchFailure =>
              right; left
              simp [main, mainRun, runProc, handle, hn, hp, hb, hd]
            | interrupted =>
              left; simp [main, mainRun, runProc, handle, hn, hp, hb, hd]
            | exited c3 =>
              right; right
              exact ⟨c3, rfl, by simp [main, mainRun, runProc, handle, hn, hp, hb, hd]⟩
          | false =>
            cases hi : w.npmInstall with
            | launchFailure =>
              right; left
              simp [main, mainRun, runProc, handle, hn, hp, hb, hi]
            | interrupted =>
              left; simp [main, mainRun, runProc, handle, hn, hp, hb, hi]
            | exited ci =>
              by_cases hci : ci = 0
              · subst hci
                cases hd : w.npmRunDev with
                | launchFailure =>
                  right; left
                  simp [main, mainRun, runProc, handle, hn, hp, hb, hi, hd]
                | interrupted =>
                  left; simp [main, mainRun, runProc, handle, hn, hp, hb, hi, hd]
                | exited c3 =>
                  right; right
                  refine ⟨c3, rfl, ?_⟩
                  simp [main, mainRun, runProc, handle, hn, hp, hb, hi, hd]
              · right; left
                simp [main, mainRun, runProc, handle, hn, hp, hb, hi, hci]
        · right; left; simp [main, mainRun, runProc, handle, hn, hp, hc2]
    · right; left; simp [main, mainRun, runProc, handle, hn, hc1]

end Launcher
